import Mathlib

/-!
Shallow embedding of the gamification and session-progress logic of the
Pomodoro Flask application (`app.py`): the XP level table, streak updates,
achievement unlocking, today-progress aggregation and windowed statistics,
together with theorems settling the specification claims about them.
Dates are modelled as integers (days since an epoch); Python integers are
`Int`; Python `//` is `Int.fdiv` (floor division).
-/

namespace Pomodoro

/-- `GamificationManager.XP_PER_LEVEL`: XP required for each level
(index i holds the threshold of level i+1). -/
def XP_PER_LEVEL : List Int := [0, 100, 250, 450, 700, 1000, 1350, 1750, 2200, 2700, 3250]

/-- `GamificationManager.XP_PER_SESSION`. -/
def XP_PER_SESSION : Int := 25

/-- The loop of `get_level_from_xp`: walk the thresholds from index 1,
setting `level := i + 1` while `xp >= XP_PER_LEVEL[i]`, breaking at the
first unmet threshold. -/
def levelScan (xp : Int) : List Int → Int → Int → Int
  | [], _, level => level
  | t :: ts, i, level => if xp ≥ t then levelScan xp ts (i + 1) (i + 1) else level

/-- `GamificationManager.get_level_from_xp`. -/
def get_level_from_xp (xp : Int) : Int := levelScan xp (XP_PER_LEVEL.drop 1) 1 1

/-- The gamification state persisted in `gamification.json`
(`xp`, `level`, `achievements`, `last_session_date`, `current_streak`,
`longest_streak`); dates are days since an epoch. -/
structure GamState where
  xp : Int
  level : Int
  achievements : List String
  last_session_date : Option Int
  current_streak : Int
  longest_streak : Int
deriving Repr, DecidableEq

/-- The default data structure returned by `_load_data` when no file exists
or it cannot be parsed. -/
def defaultData : GamState :=
  { xp := 0, level := 1, achievements := [], last_session_date := none,
    current_streak := 0, longest_streak := 0 }

/-- `GamificationManager._load_data`: returns the parsed file contents
verbatim when the data file exists and parses, and `defaultData` when the
file is missing or unreadable (`none`). -/
def load_data (file : Option GamState) : GamState :=
  match file with
  | none => defaultData
  | some d => d

/-- `GamificationManager.update_streak`: first session ever starts a streak
of 1; otherwise the day difference to the last recorded session decides
(0: unchanged, 1: increment, anything else: reset to 1);
`last_session_date` is set to the session date in both branches, and
`longest_streak` is raised to `current_streak` if exceeded. -/
def update_streak (s : GamState) (session_date : Int) : GamState :=
  let s1 :=
    match s.last_session_date with
    | none =>
        { s with current_streak := 1, last_session_date := some session_date }
    | some last_date =>
        let days_diff := session_date - last_date
        let s2 :=
          if days_diff = 0 then s
          else if days_diff = 1 then { s with current_streak := s.current_streak + 1 }
          else { s with current_streak := 1 }
        { s2 with last_session_date := some session_date }
  if s1.current_streak > s1.longest_streak then
    { s1 with longest_streak := s1.current_streak }
  else s1

/-- The record returned by `add_session_xp`. -/
structure XpResult where
  xp_gained : Int
  total_xp : Int
  level : Int
  leveled_up : Bool
deriving Repr, DecidableEq

/-- `GamificationManager.add_session_xp`: remembers the stored level, adds
`XP_PER_SESSION` to xp, recomputes the level from the new xp, stores it,
and reports the gain together with `leveled_up := new_level > old_level`. -/
def add_session_xp (s : GamState) : XpResult × GamState :=
  let old_level := s.level
  let new_xp := s.xp + XP_PER_SESSION
  let new_level := get_level_from_xp new_xp
  ({ xp_gained := XP_PER_SESSION, total_xp := new_xp, level := new_level,
     leveled_up := decide (new_level > old_level) },
   { s with xp := new_xp, level := new_level })

/-- The state after N calls of `add_session_xp` starting from the default
fresh state. -/
def xpStateAfter : Nat → GamState
  | 0 => defaultData
  | n + 1 => (add_session_xp (xpStateAfter n)).2

/-- A logged Pomodoro session: the calendar date of its timestamp (days
since the epoch) and its duration in seconds. -/
structure Session where
  date : Int
  duration : Int
deriving Repr, DecidableEq

/-- Python `date.weekday()` (Monday = 0) for a day count whose epoch,
1970-01-01, was a Thursday. -/
def weekday (d : Int) : Int := (d + 3) % 7

/-- The achievement ids in catalog declaration order
(`GamificationManager.ACHIEVEMENTS`). -/
def ACHIEVEMENT_IDS : List String :=
  ["first_session", "streak_3", "streak_7", "week_10", "week_25",
   "total_50", "total_100"]

/-- The `achievements_to_check` dictionary of `check_achievements`, in
declaration order: id paired with whether its condition holds. -/
def achievementConditions (today : Int) (sessions : List Session)
    (s : GamState) : List (String × Bool) :=
  let total_sessions := sessions.length
  let week_start := today - weekday today
  let weekly_count := (sessions.filter (fun e => decide (week_start ≤ e.date))).length
  [("first_session", decide (1 ≤ total_sessions)),
   ("streak_3", decide (3 ≤ s.current_streak)),
   ("streak_7", decide (7 ≤ s.current_streak)),
   ("week_10", decide (10 ≤ weekly_count)),
   ("week_25", decide (25 ≤ weekly_count)),
   ("total_50", decide (50 ≤ total_sessions)),
   ("total_100", decide (100 ≤ total_sessions))]

/-- The unlock loop of `check_achievements`: for each id in order, when its
condition holds and it is not yet among the unlocked achievements, append
it to both the unlocked list and the newly-unlocked result. -/
def checkLoop : List (String × Bool) → List String → List String →
    List String × List String
  | [], newly, ach => (newly, ach)
  | (aid, cond) :: rest, newly, ach =>
      if cond = true ∧ aid ∉ ach then
        checkLoop rest (newly ++ [aid]) (ach ++ [aid])
      else
        checkLoop rest newly ach

/-- `GamificationManager.check_achievements`: with no session logger it
returns `[]` and touches nothing; otherwise it runs the unlock loop and
persists exactly when at least one new achievement was unlocked. The third
component records whether `_save_data` was called. -/
def check_achievements (today : Int) (logger : Option (List Session))
    (s : GamState) : List String × GamState × Bool :=
  match logger with
  | none => ([], s, false)
  | some sessions =>
      let p := checkLoop (achievementConditions today sessions s) [] s.achievements
      (p.1, { s with achievements := p.2 }, decide (p.1 ≠ []))

/-- One line of the `pomodoro.log` event source as seen by
`get_today_progress`: blank (skipped), malformed (json.loads raises), or a
well-formed session record. -/
inductive RawLine
  | blank
  | malformed
  | valid (e : Session)
deriving Repr, DecidableEq

/-- The event source behind `SessionLogger`: the log file may be missing,
unreadable (open raises), or present with a list of lines. -/
inductive FileState
  | missing
  | unreadable
  | content (lines : List RawLine)
deriving Repr, DecidableEq

/-- The read loop of `get_today_progress`: blank lines are skipped, a
valid record dated today adds 1 to the count and `duration // 60` to the
minutes, and a malformed record raises, which the enclosing handler turns
into `{count: 0, minutes: 0}` regardless of what was accumulated. -/
def progressLoop (today : Int) : List RawLine → Int × Int → Int × Int
  | [], acc => acc
  | .blank :: rest, acc => progressLoop today rest acc
  | .malformed :: _, _ => (0, 0)
  | .valid e :: rest, acc =>
      progressLoop today rest
        (if e.date = today then (acc.1 + 1, acc.2 + Int.fdiv e.duration 60) else acc)

/-- `SessionLogger.get_today_progress`: `(0, 0)` when the file is missing
or unreadable, otherwise the result of the read loop from `(0, 0)`. -/
def get_today_progress (today : Int) (fs : FileState) : Int × Int :=
  match fs with
  | .missing => (0, 0)
  | .unreadable => (0, 0)
  | .content lines => progressLoop today lines (0, 0)

/-- The zero-initialised per-day dictionary of `get_stats`: the last `n`
calendar dates, today going backward, each mapped to 0. -/
def initData (today : Int) (n : Nat) : List (Int × Nat) :=
  (List.range n).map (fun (i : Nat) => (today - (i : Int), 0))

/-- `weekly_data[session_date] += 1` from `get_stats`: increment the entry
with the given key, if present. -/
def bump (data : List (Int × Nat)) (d : Int) : List (Int × Nat) :=
  data.map (fun p => if p.1 = d then (p.1, p.2 + 1) else p)

/-- The session-counting loop of `get_stats`. -/
def fillData (data : List (Int × Nat)) (sessions : List Session) :
    List (Int × Nat) :=
  sessions.foldl (fun acc e => bump acc e.date) data

/-- One window (weekly or monthly) of the `get_stats` result. -/
structure WindowStats where
  data : List (Int × Nat)
  total : Nat
  average : ℚ
  completion_rate : ℚ
deriving Repr, DecidableEq

/-- One window of `GamificationManager.get_stats`: the dense per-day data,
its total, `total / len` (0 on an empty value list, mirroring Python
truthiness), and the share of non-zero days times 100. -/
def windowStats (today : Int) (n : Nat) (sessions : List Session) :
    WindowStats :=
  let d := fillData (initData today n) sessions
  let vals := d.map Prod.snd
  { data := d
    total := vals.sum
    average := if vals.isEmpty then 0 else (vals.sum : ℚ) / (vals.length : ℚ)
    completion_rate :=
      if vals.isEmpty then 0
      else ((vals.filter (fun v => decide (0 < v))).length : ℚ) / (vals.length : ℚ) * 100 }

/-- `GamificationManager.get_stats`: `{}` (here `none`) without a session
logger, otherwise the 7-day and 30-day windows over all sessions. -/
def get_stats (today : Int) (logger : Option (List Session)) :
    Option (WindowStats × WindowStats) :=
  match logger with
  | none => none
  | some sessions =>
      some (windowStats today 7 sessions, windowStats today 30 sessions)

/-- The spec scenario for the 7-day window: one session per day on each of
the 7 days ending today. -/
def oneEachDay (today : Int) : List Session :=
  (List.range 7).map (fun (i : Nat) => { date := today - (i : Int), duration := 1500 })

/-- The tail of the threshold table, as walked by `get_level_from_xp`. -/
theorem xp_table_tail : XP_PER_LEVEL.drop 1 =
    [100, 250, 450, 700, 1000, 1350, 1750, 2200, 2700, 3250] := rfl

theorem gl_eq_1 (xp : Int) (h2 : xp < 100) : get_level_from_xp xp = 1 := by
  unfold get_level_from_xp
  rw [xp_table_tail]
  simp only [levelScan]
  rw [if_neg (by omega : ¬ xp ≥ 100)]

theorem gl_eq_2 (xp : Int) (h1 : 100 ≤ xp) (h2 : xp < 250) : get_level_from_xp xp = 2 := by
  unfold get_level_from_xp
  rw [xp_table_tail]
  simp only [levelScan]
  rw [if_pos (by omega : xp ≥ 100), if_neg (by omega : ¬ xp ≥ 250)]
  norm_num

theorem gl_eq_3 (xp : Int) (h1 : 250 ≤ xp) (h2 : xp < 450) : get_level_from_xp xp = 3 := by
  unfold get_level_from_xp
  rw [xp_table_tail]
  simp only [levelScan]
  rw [if_pos (by omega : xp ≥ 100), if_pos (by omega : xp ≥ 250),
    if_neg (by omega : ¬ xp ≥ 450)]
  norm_num

theorem gl_eq_4 (xp : Int) (h1 : 450 ≤ xp) (h2 : xp < 700) : get_level_from_xp xp = 4 := by
  unfold get_level_from_xp
  rw [xp_table_tail]
  simp only [levelScan]
  rw [if_pos (by omega : xp ≥ 100), if_pos (by omega : xp ≥ 250),
    if_pos (by omega : xp ≥ 450), if_neg (by omega : ¬ xp ≥ 700)]
  norm_num

theorem gl_eq_5 (xp : Int) (h1 : 700 ≤ xp) (h2 : xp < 1000) : get_level_from_xp xp = 5 := by
  unfold get_level_from_xp
  rw [xp_table_tail]
  simp only [levelScan]
  rw [if_pos (by omega : xp ≥ 100), if_pos (by omega : xp ≥ 250),
    if_pos (by omega : xp ≥ 450), if_pos (by omega : xp ≥ 700),
    if_neg (by omega : ¬ xp ≥ 1000)]
  norm_num

theorem gl_eq_6 (xp : Int) (h1 : 1000 ≤ xp) (h2 : xp < 1350) : get_level_from_xp xp = 6 := by
  unfold get_level_from_xp
  rw [xp_table_tail]
  simp only [levelScan]
  rw [if_pos (by omega : xp ≥ 100), if_pos (by omega : xp ≥ 250),
    if_pos (by omega : xp ≥ 450), if_pos (by omega : xp ≥ 700),
    if_pos (by omega : xp ≥ 1000), if_neg (by omega : ¬ xp ≥ 1350)]
  norm_num

theorem gl_eq_7 (xp : Int) (h1 : 1350 ≤ xp) (h2 : xp < 1750) : get_level_from_xp xp = 7 := by
  unfold get_level_from_xp
  rw [xp_table_tail]
  simp only [levelScan]
  rw [if_pos (by omega : xp ≥ 100), if_pos (by omega : xp ≥ 250),
    if_pos (by omega : xp ≥ 450), if_pos (by omega : xp ≥ 700),
    if_pos (by omega : xp ≥ 1000), if_pos (by omega : xp ≥ 1350),
    if_neg (by omega : ¬ xp ≥ 1750)]
  norm_num

theorem gl_eq_8 (xp : Int) (h1 : 1750 ≤ xp) (h2 : xp < 2200) : get_level_from_xp xp = 8 := by
  unfold get_level_from_xp
  rw [xp_table_tail]
  simp only [levelScan]
  rw [if_pos (by omega : xp ≥ 100), if_pos (by omega : xp ≥ 250),
    if_pos (by omega : xp ≥ 450), if_pos (by omega : xp ≥ 700),
    if_pos (by omega : xp ≥ 1000), if_pos (by omega : xp ≥ 1350),
    if_pos (by omega : xp ≥ 1750), if_neg (by omega : ¬ xp ≥ 2200)]
  norm_num

theorem gl_eq_9 (xp : Int) (h1 : 2200 ≤ xp) (h2 : xp < 2700) : get_level_from_xp xp = 9 := by
  unfold get_level_from_xp
  rw [xp_table_tail]
  simp only [levelScan]
  rw [if_pos (by omega : xp ≥ 100), if_pos (by omega : xp ≥ 250),
    if_pos (by omega : xp ≥ 450), if_pos (by omega : xp ≥ 700),
    if_pos (by omega : xp ≥ 1000), if_pos (by omega : xp ≥ 1350),
    if_pos (by omega : xp ≥ 1750), if_pos (by omega : xp ≥ 2200),
    if_neg (by omega : ¬ xp ≥ 2700)]
  norm_num

theorem gl_eq_10 (xp : Int) (h1 : 2700 ≤ xp) (h2 : xp < 3250) : get_level_from_xp xp = 10 := by
  unfold get_level_from_xp
  rw [xp_table_tail]
  simp only [levelScan]
  rw [if_pos (by omega : xp ≥ 100), if_pos (by omega : xp ≥ 250),
    if_pos (by omega : xp ≥ 450), if_pos (by omega : xp ≥ 700),
    if_pos (by omega : xp ≥ 1000), if_pos (by omega : xp ≥ 1350),
    if_pos (by omega : xp ≥ 1750), if_pos (by omega : xp ≥ 2200),
    if_pos (by omega : xp ≥ 2700), if_neg (by omega : ¬ xp ≥ 3250)]
  norm_num

theorem gl_eq_11 (xp : Int) (h1 : 3250 ≤ xp) : get_level_from_xp xp = 11 := by
  unfold get_level_from_xp
  rw [xp_table_tail]
  simp only [levelScan]
  rw [if_pos (by omega : xp ≥ 100), if_pos (by omega : xp ≥ 250),
    if_pos (by omega : xp ≥ 450), if_pos (by omega : xp ≥ 700),
    if_pos (by omega : xp ≥ 1000), if_pos (by omega : xp ≥ 1350),
    if_pos (by omega : xp ≥ 1750), if_pos (by omega : xp ≥ 2200),
    if_pos (by omega : xp ≥ 2700), if_pos (by omega : xp ≥ 3250)]
  norm_num

/-- Full interval case analysis of `get_level_from_xp` over the concrete
threshold table, in a form `omega` can consume directly. -/
theorem gl_cases (xp : Int) :
    (xp < 100 ∧ get_level_from_xp xp = 1) ∨
    (100 ≤ xp ∧ xp < 250 ∧ get_level_from_xp xp = 2) ∨
    (250 ≤ xp ∧ xp < 450 ∧ get_level_from_xp xp = 3) ∨
    (450 ≤ xp ∧ xp < 700 ∧ get_level_from_xp xp = 4) ∨
    (700 ≤ xp ∧ xp < 1000 ∧ get_level_from_xp xp = 5) ∨
    (1000 ≤ xp ∧ xp < 1350 ∧ get_level_from_xp xp = 6) ∨
    (1350 ≤ xp ∧ xp < 1750 ∧ get_level_from_xp xp = 7) ∨
    (1750 ≤ xp ∧ xp < 2200 ∧ get_level_from_xp xp = 8) ∨
    (2200 ≤ xp ∧ xp < 2700 ∧ get_level_from_xp xp = 9) ∨
    (2700 ≤ xp ∧ xp < 3250 ∧ get_level_from_xp xp = 10) ∨
    (3250 ≤ xp ∧ get_level_from_xp xp = 11) := by
  by_cases c1 : xp < 100
  · exact Or.inl ⟨c1, gl_eq_1 xp c1⟩
  by_cases c2 : xp < 250
  · exact Or.inr (Or.inl ⟨by omega, c2, gl_eq_2 xp (by omega) c2⟩)
  by_cases c3 : xp < 450
  · exact Or.inr (Or.inr (Or.inl ⟨by omega, c3, gl_eq_3 xp (by omega) c3⟩))
  by_cases c4 : xp < 700
  · exact Or.inr (Or.inr (Or.inr (Or.inl ⟨by omega, c4, gl_eq_4 xp (by omega) c4⟩)))
  by_cases c5 : xp < 1000
  · exact Or.inr (Or.inr (Or.inr (Or.inr (Or.inl
      ⟨by omega, c5, gl_eq_5 xp (by omega) c5⟩))))
  by_cases c6 : xp < 1350
  · exact Or.inr (Or.inr (Or.inr (Or.inr (Or.inr (Or.inl
      ⟨by omega, c6, gl_eq_6 xp (by omega) c6⟩)))))
  by_cases c7 : xp < 1750
  · exact Or.inr (Or.inr (Or.inr (Or.inr (Or.inr (Or.inr (Or.inl
      ⟨by omega, c7, gl_eq_7 xp (by omega) c7⟩))))))
  by_cases c8 : xp < 2200
  · exact Or.inr (Or.inr (Or.inr (Or.inr (Or.inr (Or.inr (Or.inr (Or.inl
      ⟨by omega, c8, gl_eq_8 xp (by omega) c8⟩)))))))
  by_cases c9 : xp < 2700
  · exact Or.inr (Or.inr (Or.inr (Or.inr (Or.inr (Or.inr (Or.inr (Or.inr (Or.inl
      ⟨by omega, c9, gl_eq_9 xp (by omega) c9⟩))))))))
  by_cases c10 : xp < 3250
  · exact Or.inr (Or.inr (Or.inr (Or.inr (Or.inr (Or.inr (Or.inr (Or.inr (Or.inr (Or.inl
      ⟨by omega, c10, gl_eq_10 xp (by omega) c10⟩)))))))))
  · exact Or.inr (Or.inr (Or.inr (Or.inr (Or.inr (Or.inr (Or.inr (Or.inr (Or.inr (Or.inr
      ⟨by omega, gl_eq_11 xp (by omega)⟩)))))))))

/-- Claim C2: for non-negative xp, `get_level_from_xp` is monotonically
non-decreasing, equals 1 for xp < 100, equals the largest level L with
xp ≥ XP_PER_LEVEL[L-1] (expressed as: for 1 ≤ L ≤ 11, L ≤ level(xp) iff
XP_PER_LEVEL[L-1] ≤ xp, with 1 ≤ level(xp) ≤ 11), and is capped at 11 for
xp ≥ 3250. -/
theorem get_level_from_xp_correct (x y : Int) (L : Nat)
    (hx : 0 ≤ x) (hxy : x ≤ y) (hL1 : 1 ≤ L) (hL2 : L ≤ 11) :
    get_level_from_xp x ≤ get_level_from_xp y ∧
    (x < 100 → get_level_from_xp x = 1) ∧
    1 ≤ get_level_from_xp x ∧ get_level_from_xp x ≤ 11 ∧
    ((L : Int) ≤ get_level_from_xp x ↔ XP_PER_LEVEL.getD (L - 1) 0 ≤ x) ∧
    (3250 ≤ x → get_level_from_xp x = 11) := by
  refine ⟨?_, ?_, ?_, ?_, ?_, ?_⟩
  · have hx := gl_cases x
    have hy := gl_cases y
    omega
  · have hx := gl_cases x
    omega
  · have hx := gl_cases x
    omega
  · have hx := gl_cases x
    omega
  · have hx := gl_cases x
    interval_cases L <;> norm_num [XP_PER_LEVEL, List.getD] <;> omega
  · have hx := gl_cases x
    omega

/-- Witness for C2 at x = 150, y = 500, L = 3. -/
theorem get_level_from_xp_correct_witness :
    (0 : Int) ≤ 150 ∧ (150 : Int) ≤ 500 ∧ 1 ≤ 3 ∧ 3 ≤ 11 ∧
    (get_level_from_xp 150 ≤ get_level_from_xp 500 ∧
     ((150 : Int) < 100 → get_level_from_xp 150 = 1) ∧
     1 ≤ get_level_from_xp 150 ∧ get_level_from_xp 150 ≤ 11 ∧
     ((3 : Int) ≤ get_level_from_xp 150 ↔ XP_PER_LEVEL.getD (3 - 1) 0 ≤ 150) ∧
     ((3250 : Int) ≤ 150 → get_level_from_xp 150 = 11)) :=
  ⟨by norm_num, by norm_num, by norm_num, by norm_num,
   get_level_from_xp_correct 150 500 3 (by norm_num) (by norm_num) (by norm_num) (by norm_num)⟩

theorem update_streak_current (s : GamState) (d : Int) :
    (update_streak s d).current_streak =
      (match s.last_session_date with
       | none => 1
       | some l =>
           if d - l = 0 then s.current_streak
           else if d - l = 1 then s.current_streak + 1
           else 1) := by
  rcases hls : s.last_session_date with _ | l <;>
    simp only [update_streak, hls] <;> split_ifs <;> simp_all

theorem update_streak_last (s : GamState) (d : Int) :
    (update_streak s d).last_session_date = some d := by
  rcases hls : s.last_session_date with _ | l <;>
    simp only [update_streak, hls] <;> split_ifs <;> simp_all

theorem update_streak_longest (s : GamState) (d : Int) :
    (update_streak s d).longest_streak =
      max s.longest_streak (update_streak s d).current_streak := by
  rcases hls : s.last_session_date with _ | l <;>
    simp only [update_streak, hls] <;> split_ifs <;> simp_all <;> omega

theorem update_streak_xp (s : GamState) (d : Int) :
    (update_streak s d).xp = s.xp ∧ (update_streak s d).level = s.level ∧
    (update_streak s d).achievements = s.achievements := by
  rcases hls : s.last_session_date with _ | l <;>
    simp only [update_streak, hls] <;> split_ifs <;> simp_all

theorem update_streak_current_none (s : GamState) (d : Int)
    (h : s.last_session_date = none) :
    (update_streak s d).current_streak = 1 := by
  rw [update_streak_current, h]

theorem update_streak_current_some (s : GamState) (d l : Int)
    (h : s.last_session_date = some l) :
    (update_streak s d).current_streak =
      if d - l = 0 then s.current_streak
      else if d - l = 1 then s.current_streak + 1
      else 1 := by
  rw [update_streak_current, h]

/-- The concrete streak scenario: sessions on days d, d+1, d+2 from a fresh
state reach streak 3/3; a fourth session on day d+5 resets the current
streak to 1 while the longest stays 3. -/
theorem streak_chain (d : Int) :
    (update_streak (update_streak (update_streak defaultData d) (d + 1))
        (d + 2)).current_streak = 3 ∧
    (update_streak (update_streak (update_streak defaultData d) (d + 1))
        (d + 2)).longest_streak = 3 ∧
    (update_streak (update_streak (update_streak (update_streak defaultData d)
        (d + 1)) (d + 2)) (d + 5)).current_streak = 1 ∧
    (update_streak (update_streak (update_streak (update_streak defaultData d)
        (d + 1)) (d + 2)) (d + 5)).longest_streak = 3 := by
  have e0l : defaultData.last_session_date = none := rfl
  have e0g : defaultData.longest_streak = 0 := rfl
  have e1c : (update_streak defaultData d).current_streak = 1 :=
    update_streak_current_none defaultData d e0l
  have e1l := update_streak_last defaultData d
  have e1g : (update_streak defaultData d).longest_streak = 1 := by
    rw [update_streak_longest, e1c, e0g]
    decide
  have e2c : (update_streak (update_streak defaultData d) (d + 1)).current_streak = 2 := by
    rw [update_streak_current_some _ _ d e1l,
      if_neg (by omega : ¬ d + 1 - d = 0), if_pos (by omega : d + 1 - d = 1), e1c]
    decide
  have e2l := update_streak_last (update_streak defaultData d) (d + 1)
  have e2g : (update_streak (update_streak defaultData d) (d + 1)).longest_streak = 2 := by
    rw [update_streak_longest, e2c, e1g]
    decide
  have e3c : (update_streak (update_streak (update_streak defaultData d) (d + 1))
      (d + 2)).current_streak = 3 := by
    rw [update_streak_current_some _ _ (d + 1) e2l,
      if_neg (by omega : ¬ d + 2 - (d + 1) = 0),
      if_pos (by omega : d + 2 - (d + 1) = 1), e2c]
    decide
  have e3l := update_streak_last (update_streak (update_streak defaultData d) (d + 1)) (d + 2)
  have e3g : (update_streak (update_streak (update_streak defaultData d) (d + 1))
      (d + 2)).longest_streak = 3 := by
    rw [update_streak_longest, e3c, e2g]
    decide
  have e4c : (update_streak (update_streak (update_streak (update_streak defaultData d)
      (d + 1)) (d + 2)) (d + 5)).current_streak = 1 := by
    rw [update_streak_current_some _ _ (d + 2) e3l,
      if_neg (by omega : ¬ d + 5 - (d + 2) = 0),
      if_neg (by omega : ¬ d + 5 - (d + 2) = 1)]
  have e4g : (update_streak (update_streak (update_streak (update_streak defaultData d)
      (d + 1)) (d + 2)) (d + 5)).longest_streak = 3 := by
    rw [update_streak_longest, e4c, e3g]
    decide
  exact ⟨e3c, e3g, e4c, e4g⟩

/-- Claim C1: `update_streak` starts a streak of 1 on the first session
ever; otherwise day difference 0 leaves the streak, 1 increments it, and
any other value resets it to 1; `last_session_date` is unconditionally set
to the session date; `longest_streak` becomes the maximum of its old value
and the streak; and the d, d+1, d+2 (then d+5) scenario yields streaks
3/3 then 1/3. -/
theorem update_streak_correct (s : GamState) (d : Int) :
    ((update_streak s d).current_streak =
      (match s.last_session_date with
       | none => 1
       | some l =>
           if d - l = 0 then s.current_streak
           else if d - l = 1 then s.current_streak + 1
           else 1)) ∧
    (update_streak s d).last_session_date = some d ∧
    (update_streak s d).longest_streak =
      max s.longest_streak (update_streak s d).current_streak ∧
    (update_streak (update_streak (update_streak defaultData d) (d + 1))
        (d + 2)).current_streak = 3 ∧
    (update_streak (update_streak (update_streak defaultData d) (d + 1))
        (d + 2)).longest_streak = 3 ∧
    (update_streak (update_streak (update_streak (update_streak defaultData d)
        (d + 1)) (d + 2)) (d + 5)).current_streak = 1 ∧
    (update_streak (update_streak (update_streak (update_streak defaultData d)
        (d + 1)) (d + 2)) (d + 5)).longest_streak = 3 :=
  ⟨update_streak_current s d, update_streak_last s d, update_streak_longest s d,
   (streak_chain d).1, (streak_chain d).2.1, (streak_chain d).2.2.1,
   (streak_chain d).2.2.2⟩

theorem add_session_xp_snd (s : GamState) :
    (add_session_xp s).2 =
      { s with xp := s.xp + 25, level := get_level_from_xp (s.xp + 25) } := rfl

theorem add_session_xp_fst (s : GamState) :
    (add_session_xp s).1 =
      { xp_gained := 25, total_xp := s.xp + 25,
        level := get_level_from_xp (s.xp + 25),
        leveled_up := decide (s.level < get_level_from_xp (s.xp + 25)) } := rfl

/-- After n fresh-state sessions the stored xp is 25n and the stored level
is recomputed from it. -/
theorem xpStateAfter_fields (n : Nat) :
    (xpStateAfter n).xp = 25 * (n : Int) ∧
    (xpStateAfter n).level = get_level_from_xp (25 * (n : Int)) := by
  induction n with
  | zero =>
      refine ⟨rfl, ?_⟩
      have h1 : get_level_from_xp (25 * ((0 : Nat) : Int)) = 1 :=
        gl_eq_1 _ (by norm_num)
      rw [h1]
      rfl
  | succ n ih =>
      have hx : (xpStateAfter (n + 1)).xp = (xpStateAfter n).xp + 25 := by
        show ((add_session_xp (xpStateAfter n)).2).xp = _
        rw [add_session_xp_snd]
      have hl : (xpStateAfter (n + 1)).level =
          get_level_from_xp ((xpStateAfter n).xp + 25) := by
        show ((add_session_xp (xpStateAfter n)).2).level = _
        rw [add_session_xp_snd]
      constructor
      · rw [hx, ih.1]
        push_cast
        ring
      · rw [hl, ih.1]
        congr 1

/-- Claim C3: the (N+1)st call of `add_session_xp` from the default fresh
state returns total_xp = 25(N+1), xp_gained = 25,
level = get_level_from_xp(25(N+1)), and leveled_up exactly when the level
for 25(N+1) xp exceeds the level for 25N xp. -/
theorem add_session_xp_sequence (N : Nat) :
    ((add_session_xp (xpStateAfter N)).1).total_xp = 25 * ((N : Int) + 1) ∧
    ((add_session_xp (xpStateAfter N)).1).xp_gained = 25 ∧
    ((add_session_xp (xpStateAfter N)).1).level =
      get_level_from_xp (25 * ((N : Int) + 1)) ∧
    (((add_session_xp (xpStateAfter N)).1).leveled_up = true ↔
      get_level_from_xp (25 * (N : Int)) < get_level_from_xp (25 * ((N : Int) + 1))) := by
  have hx := (xpStateAfter_fields N).1
  have hl := (xpStateAfter_fields N).2
  have h25 : (xpStateAfter N).xp + 25 = 25 * ((N : Int) + 1) := by
    rw [hx]; ring
  rw [add_session_xp_fst]
  refine ⟨h25, rfl, by rw [h25], ?_⟩
  rw [h25, hl]
  simp

/-- Claim C9: `add_session_xp` on an arbitrary starting state (including an
inconsistent loaded one) adds 25 xp, sets the level field to
`get_level_from_xp` of the new xp (restoring consistency), and reports
leveled_up by comparing the new level against the previously stored level
field; with a loaded state xp = 75, level = 2 the call crosses the
100-xp threshold yet reports leveled_up = false. -/
theorem add_session_xp_reports (s : GamState) :
    ((add_session_xp s).2).xp = s.xp + 25 ∧
    ((add_session_xp s).2).level = get_level_from_xp (s.xp + 25) ∧
    ((add_session_xp s).2).level = get_level_from_xp ((add_session_xp s).2).xp ∧
    (((add_session_xp s).1).leveled_up = true ↔
      s.level < get_level_from_xp (s.xp + 25)) ∧
    ((add_session_xp (load_data (some
        { xp := 75, level := 2, achievements := [], last_session_date := none,
          current_streak := 0, longest_streak := 0 }))).1).leveled_up = false ∧
    get_level_from_xp 75 < get_level_from_xp (75 + 25) := by
  refine ⟨rfl, rfl, rfl, ?_, by decide, by decide⟩
  rw [add_session_xp_fst]
  simp

/-- The unlock loop appends the same new ids, in order and without
duplicates, to both the newly-unlocked list and the unlocked list; every
new id was previously missing, and the new ids follow the order of the
condition list. -/
theorem checkLoop_delta (conds : List (String × Bool)) :
    ∀ newly ach, ∃ Δ,
      (checkLoop conds newly ach).1 = newly ++ Δ ∧
      (checkLoop conds newly ach).2 = ach ++ Δ ∧
      Δ.Nodup ∧ (∀ a ∈ Δ, a ∉ ach) ∧ Δ.Sublist (conds.map Prod.fst) := by
  induction conds with
  | nil =>
      intro newly ach
      exact ⟨[], by simp [checkLoop], by simp [checkLoop], List.nodup_nil,
        by simp, by simp⟩
  | cons hd rest ih =>
      intro newly ach
      rcases hd with ⟨aid, cond⟩
      by_cases hc : cond = true ∧ aid ∉ ach
      · rcases ih (newly ++ [aid]) (ach ++ [aid]) with
          ⟨Δ, h1, h2, h3, h4, h5⟩
        refine ⟨aid :: Δ, ?_, ?_, ?_, ?_, ?_⟩
        · rw [checkLoop, if_pos hc, h1, List.append_assoc]
          rfl
        · rw [checkLoop, if_pos hc, h2, List.append_assoc]
          rfl
        · refine List.nodup_cons.2 ⟨?_, h3⟩
          intro hmem
          exact (h4 aid hmem) (by simp)
        · intro a ha
          rcases List.mem_cons.1 ha with rfl | ha
          · exact hc.2
          · intro hin
            exact (h4 a ha) (by simp [hin])
        · simpa using List.Sublist.cons₂ aid h5
      · rcases ih newly ach with ⟨Δ, h1, h2, h3, h4, h5⟩
        refine ⟨Δ, ?_, ?_, h3, h4, ?_⟩
        · rw [checkLoop, if_neg hc, h1]
        · rw [checkLoop, if_neg hc, h2]
        · simpa using List.Sublist.cons aid h5

/-- Every id whose condition is true is in the unlocked list after the
unlock loop runs. -/
theorem checkLoop_complete (conds : List (String × Bool)) :
    ∀ newly ach, ∀ p ∈ conds, p.2 = true → p.1 ∈ (checkLoop conds newly ach).2 := by
  induction conds with
  | nil =>
      intro newly ach p hp
      exact absurd hp (List.not_mem_nil p)
  | cons hd rest ih =>
      intro newly ach p hp hcond
      rcases hd with ⟨aid, cond⟩
      rcases List.mem_cons.1 hp with rfl | hp
      · by_cases hc : cond = true ∧ aid ∉ ach
        · rw [checkLoop, if_pos hc]
          rcases checkLoop_delta rest (newly ++ [aid]) (ach ++ [aid]) with
            ⟨Δ, _, h2, _, _, _⟩
          rw [h2]
          simp
        · rw [checkLoop, if_neg hc]
          rcases checkLoop_delta rest newly ach with ⟨Δ, _, h2, _, _, _⟩
          rw [h2]
          have : aid ∈ ach := by
            by_contra hnot
            exact hc ⟨hcond, hnot⟩
          simp [this]
      · by_cases hc : cond = true ∧ aid ∉ ach
        · rw [checkLoop, if_pos hc]
          exact ih (newly ++ [aid]) (ach ++ [aid]) p hp hcond
        · rw [checkLoop, if_neg hc]
          exact ih newly ach p hp hcond

/-- When every true condition is already unlocked, the unlock loop is the
identity. -/
theorem checkLoop_stable (conds : List (String × Bool)) :
    ∀ newly ach, (∀ p ∈ conds, p.2 = true → p.1 ∈ ach) →
      checkLoop conds newly ach = (newly, ach) := by
  induction conds with
  | nil =>
      intro newly ach _
      rfl
  | cons hd rest ih =>
      intro newly ach hall
      rcases hd with ⟨aid, cond⟩
      have hno : ¬ (cond = true ∧ aid ∉ ach) := by
        rintro ⟨hc, hnot⟩
        exact hnot (hall (aid, cond) (by simp) hc)
      rw [checkLoop, if_neg hno]
      exact ih newly ach (fun p hp => hall p (List.mem_cons_of_mem _ hp))

/-- The condition list does not depend on the unlocked-achievements field
of the state. -/
theorem achievementConditions_congr (today : Int) (sessions : List Session)
    (s t : GamState) (h : s.current_streak = t.current_streak) :
    achievementConditions today sessions s = achievementConditions today sessions t := by
  simp [achievementConditions, h]

/-- Claim C4: `check_achievements` adds each achievement id at most once
and never removes one (the new unlocked list is the old one extended by
the nodup newly-unlocked ids, none previously present); the newly-unlocked
ids follow the catalog declaration order; state is persisted exactly when
at least one id was newly unlocked; and an immediate second call returns
the empty list, leaves the state unchanged, and performs no write. -/
theorem check_achievements_correct (today : Int) (lg : Option (List Session))
    (s : GamState) :
    ((check_achievements today lg s).2.1).achievements =
      s.achievements ++ (check_achievements today lg s).1 ∧
    ((check_achievements today lg s).1).Nodup ∧
    (∀ a ∈ (check_achievements today lg s).1, a ∉ s.achievements) ∧
    ((check_achievements today lg s).1).Sublist ACHIEVEMENT_IDS ∧
    ((check_achievements today lg s).2.2 = true ↔
      (check_achievements today lg s).1 ≠ []) ∧
    check_achievements today lg ((check_achievements today lg s).2.1) =
      ([], (check_achievements today lg s).2.1, false) := by
  match lg with
  | none =>
      refine ⟨by simp [check_achievements], List.nodup_nil,
        by simp [check_achievements], ?_, ?_, rfl⟩
      · simp [check_achievements]
      · simp [check_achievements]
  | some sessions =>
      rcases checkLoop_delta (achievementConditions today sessions s) []
        s.achievements with ⟨Δ, h1, h2, h3, h4, h5⟩
      have hfst : (check_achievements today (some sessions) s).1 =
          (checkLoop (achievementConditions today sessions s) [] s.achievements).1 := rfl
      have hach : ((check_achievements today (some sessions) s).2.1).achievements =
          (checkLoop (achievementConditions today sessions s) [] s.achievements).2 := rfl
      have hΔ : (check_achievements today (some sessions) s).1 = Δ := by
        rw [hfst, h1]
        rfl
      have hmap : (achievementConditions today sessions s).map Prod.fst =
          ACHIEVEMENT_IDS := rfl
      refine ⟨?_, ?_, ?_, ?_, ?_, ?_⟩
      · rw [hach, h2, hΔ]
      · rw [hΔ]
        exact h3
      · rw [hΔ]
        exact h4
      · rw [hΔ]
        rw [hmap] at h5
        exact h5
      · have hdec : (check_achievements today (some sessions) s).2.2 =
            decide ((check_achievements today (some sessions) s).1 ≠ []) := rfl
        rw [hdec]
        simp
      · -- second call: all true conditions are already unlocked
        have hcomplete : ∀ p ∈ achievementConditions today sessions s,
            p.2 = true →
            p.1 ∈ (checkLoop (achievementConditions today sessions s) [] s.achievements).2 :=
          fun p hp hc => checkLoop_complete _ [] s.achievements p hp hc
        have hq := checkLoop_stable (achievementConditions today sessions s) []
          (checkLoop (achievementConditions today sessions s) [] s.achievements).2 hcomplete
        have hc2 : achievementConditions today sessions
            { s with achievements :=
                (checkLoop (achievementConditions today sessions s) [] s.achievements).2 } =
            achievementConditions today sessions s :=
          achievementConditions_congr today sessions _ s rfl
        simp only [check_achievements, hc2, hq]
        simp

theorem progressLoop_valid (today : Int) (events : List Session) :
    ∀ c m : Int, progressLoop today (events.map RawLine.valid) (c, m) =
      (c + ((events.filter (fun e => decide (e.date = today))).length : Int),
       m + ((events.filter (fun e => decide (e.date = today))).map
         (fun e => Int.fdiv e.duration 60)).sum) := by
  induction events with
  | nil =>
      intro c m
      simp [progressLoop]
  | cons e rest ih =>
      intro c m
      by_cases h : e.date = today
      · simp only [List.map_cons, progressLoop, if_pos h, ih]
        rw [List.filter_cons, if_pos (by simp [h])]
        simp only [List.length_cons, List.map_cons, List.sum_cons, Prod.mk.injEq]
        constructor <;> push_cast <;> ring
      · simp only [List.map_cons, progressLoop, if_neg h, ih]
        rw [List.filter_cons, if_neg (by simp [h])]

/-- Claim C5: on a well-formed event file, `get_today_progress` counts the
events dated today and sums `duration // 60` over them; the concrete
scenarios from the spec follow, including the 60-second and 59-second
boundary cases. -/
theorem get_today_progress_correct (today : Int) (events : List Session) :
    get_today_progress today (.content (events.map RawLine.valid)) =
      (((events.filter (fun e => decide (e.date = today))).length : Int),
       ((events.filter (fun e => decide (e.date = today))).map
         (fun e => Int.fdiv e.duration 60)).sum) ∧
    get_today_progress today (.content ([⟨today, 1500⟩, ⟨today, 1800⟩].map RawLine.valid)) =
      (2, 55) ∧
    get_today_progress today (.content ([⟨today - 1, 1500⟩, ⟨today, 1500⟩].map RawLine.valid)) =
      (1, 25) ∧
    get_today_progress today (.content ([⟨today, 60⟩].map RawLine.valid)) = (1, 1) ∧
    get_today_progress today (.content ([⟨today, 59⟩].map RawLine.valid)) = (1, 0) := by
  have key : ∀ evs : List Session,
      get_today_progress today (.content (evs.map RawLine.valid)) =
      (((evs.filter (fun e => decide (e.date = today))).length : Int),
       ((evs.filter (fun e => decide (e.date = today))).map
         (fun e => Int.fdiv e.duration 60)).sum) := by
    intro evs
    have h := progressLoop_valid today evs 0 0
    simpa [get_today_progress] using h
  refine ⟨key events, ?_, ?_, ?_, ?_⟩
  · rw [key]
    simp [List.filter_cons]
  · rw [key]
    have hne : ¬ (today - 1 = today) := by omega
    simp [List.filter_cons, hne]
  · rw [key]
    simp [List.filter_cons]
  · rw [key]
    simp [List.filter_cons]

/-- A malformed record anywhere in the file zeroes the whole aggregate, no
matter what was accumulated before it. -/
theorem progressLoop_malformed (today : Int) (lines : List RawLine)
    (h : RawLine.malformed ∈ lines) :
    ∀ acc, progressLoop today lines acc = (0, 0) := by
  induction lines with
  | nil => exact absurd h (List.not_mem_nil _)
  | cons l rest ih =>
      intro acc
      match l with
      | .blank =>
          have hm : RawLine.malformed ∈ rest := by
            rcases List.mem_cons.1 h with hl | hr
            · exact absurd hl.symm (by simp)
            · exact hr
          exact ih hm acc
      | .malformed => rfl
      | .valid e =>
          have hm : RawLine.malformed ∈ rest := by
            rcases List.mem_cons.1 h with hl | hr
            · exact absurd hl.symm (by simp)
            · exact hr
          exact ih hm _

/-- Claim C7: `get_today_progress` returns `(0, 0)` when the event source
is missing, unreadable, or empty, and a single malformed record anywhere
zeroes the entire aggregate — no partial count is reported. -/
theorem get_today_progress_failsoft (today : Int) (lines : List RawLine)
    (h : RawLine.malformed ∈ lines) :
    get_today_progress today .missing = (0, 0) ∧
    get_today_progress today .unreadable = (0, 0) ∧
    get_today_progress today (.content []) = (0, 0) ∧
    get_today_progress today (.content lines) = (0, 0) :=
  ⟨rfl, rfl, rfl, progressLoop_malformed today lines h (0, 0)⟩

/-- Witness for C7: a file whose second line is corrupt yields `(0, 0)`
even though its first line is a valid session dated today. -/
theorem get_today_progress_failsoft_witness :
    RawLine.malformed ∈ [RawLine.valid ⟨0, 1500⟩, RawLine.malformed] ∧
    get_today_progress 0 .missing = (0, 0) ∧
    get_today_progress 0 .unreadable = (0, 0) ∧
    get_today_progress 0 (.content []) = (0, 0) ∧
    get_today_progress 0 (.content [RawLine.valid ⟨0, 1500⟩, RawLine.malformed]) = (0, 0) :=
  ⟨by decide,
   get_today_progress_failsoft 0 [RawLine.valid ⟨0, 1500⟩, RawLine.malformed] (by decide)⟩

/-- Filling the per-day dictionary adds, to each entry, the number of
sessions dated on its key. -/
theorem fillData_eq (sessions : List Session) :
    ∀ data : List (Int × Nat), fillData data sessions =
      data.map (fun p =>
        (p.1, p.2 + (sessions.filter (fun e => decide (e.date = p.1))).length)) := by
  induction sessions with
  | nil =>
      intro data
      simp [fillData]
  | cons e rest ih =>
      intro data
      show fillData (bump data e.date) rest = _
      rw [ih (bump data e.date)]
      unfold bump
      rw [List.map_map]
      have hfun : ((fun p : Int × Nat =>
            (p.1, p.2 + (rest.filter (fun s => decide (s.date = p.1))).length)) ∘
            (fun p : Int × Nat => if p.1 = e.date then (p.1, p.2 + 1) else p)) =
          (fun p : Int × Nat =>
            (p.1, p.2 + (((e :: rest).filter (fun s => decide (s.date = p.1))).length))) := by
        funext p
        by_cases h : p.1 = e.date
        · simp only [Function.comp, if_pos h, List.filter_cons]
          rw [if_pos (by simp [h])]
          simp only [List.length_cons, Prod.mk.injEq]
          exact ⟨by trivial, by omega⟩
        · simp only [Function.comp, if_neg h, List.filter_cons]
          rw [if_neg (by simp only [decide_eq_true_eq]
                         exact fun hh => h hh.symm)]
      rw [hfun]

/-- The per-day data of a window: key i is the date i days before today,
and its value counts the sessions dated exactly there. -/
theorem windowStats_data (today : Int) (n : Nat) (sessions : List Session) :
    (windowStats today n sessions).data =
      (List.range n).map (fun (i : Nat) =>
        (today - (i : Int),
         (sessions.filter (fun e => decide (e.date = today - (i : Int)))).length)) := by
  show fillData (initData today n) sessions = _
  rw [fillData_eq]
  unfold initData
  rw [List.map_map]
  apply List.map_congr_left
  intro i hi
  simp [Function.comp]

theorem windowStats_length (today : Int) (n : Nat) (sessions : List Session) :
    (windowStats today n sessions).data.length = n := by
  rw [windowStats_data, List.length_map, List.length_range]

theorem windowStats_total (today : Int) (n : Nat) (sessions : List Session) :
    (windowStats today n sessions).total =
      ((List.range n).map (fun (i : Nat) =>
        (sessions.filter (fun e => decide (e.date = today - (i : Int)))).length)).sum := by
  show (((windowStats today n sessions).data).map Prod.snd).sum = _
  rw [windowStats_data, List.map_map]
  exact congrArg List.sum (List.map_congr_left (fun i hi => by simp [Function.comp]))

theorem windowStats_isEmpty (today : Int) (n : Nat) (sessions : List Session)
    (hn : n ≠ 0) :
    ((windowStats today n sessions).data.map Prod.snd).isEmpty = false := by
  cases hv : ((windowStats today n sessions).data.map Prod.snd).isEmpty
  · rfl
  · exfalso
    rw [List.isEmpty_iff] at hv
    have hvlen : ((windowStats today n sessions).data.map Prod.snd).length = n := by
      rw [List.length_map, windowStats_length]
    rw [hv] at hvlen
    exact hn hvlen.symm

theorem windowStats_average (today : Int) (n : Nat) (sessions : List Session)
    (hn : n ≠ 0) :
    (windowStats today n sessions).average =
      ((windowStats today n sessions).total : ℚ) / (n : ℚ) := by
  have hvlen : ((windowStats today n sessions).data.map Prod.snd).length = n := by
    rw [List.length_map, windowStats_length]
  show (if ((windowStats today n sessions).data.map Prod.snd).isEmpty then (0 : ℚ)
        else (((windowStats today n sessions).data.map Prod.snd).sum : ℚ) /
          (((windowStats today n sessions).data.map Prod.snd).length : ℚ)) = _
  rw [if_neg (by simp [windowStats_isEmpty today n sessions hn])]
  rw [hvlen]
  rfl

theorem windowStats_completion (today : Int) (n : Nat) (sessions : List Session)
    (hn : n ≠ 0) :
    (windowStats today n sessions).completion_rate =
      (((windowStats today n sessions).data.filter
        (fun p => decide (0 < p.2))).length : ℚ) / (n : ℚ) * 100 := by
  have hvlen : ((windowStats today n sessions).data.map Prod.snd).length = n := by
    rw [List.length_map, windowStats_length]
  show (if ((windowStats today n sessions).data.map Prod.snd).isEmpty then (0 : ℚ)
        else ((((windowStats today n sessions).data.map Prod.snd).filter
            (fun v => decide (0 < v))).length : ℚ) /
          (((windowStats today n sessions).data.map Prod.snd).length : ℚ) * 100) = _
  rw [if_neg (by simp [windowStats_isEmpty today n sessions hn])]
  rw [hvlen, List.filter_map, List.length_map]
  rfl

theorem oneEachDay_count (today : Int) (i : Nat) (hi : i ∈ List.range 7) :
    ((oneEachDay today).filter
      (fun e => decide (e.date = today - (i : Int)))).length = 1 := by
  unfold oneEachDay
  rw [List.filter_map, List.length_map]
  have hpred : ∀ j ∈ List.range 7,
      ((fun e : Session => decide (e.date = today - (i : Int))) ∘
        (fun j : Nat => ({ date := today - (j : Int), duration := 1500 } : Session))) j =
      decide (j = i) := by
    intro j hj
    simp only [Function.comp]
    by_cases h : j = i
    · simp [h]
    · have hne : ¬ (today - (j : Int) = today - (i : Int)) := by omega
      simp [h, hne]
  rw [List.filter_congr hpred]
  have hi7 : i < 7 := List.mem_range.1 hi
  interval_cases i <;> decide

theorem oneEachDay_data (today : Int) :
    (windowStats today 7 (oneEachDay today)).data =
      (List.range 7).map (fun (i : Nat) => (today - (i : Int), 1)) := by
  rw [windowStats_data]
  exact @List.map_congr_left Nat (List.range 7) (Int × Nat)
    (fun (i : Nat) => (today - (i : Int),
      ((oneEachDay today).filter (fun e => decide (e.date = today - (i : Int)))).length))
    (fun (i : Nat) => (today - (i : Int), 1))
    (fun i hi => by
      dsimp only
      rw [oneEachDay_count today i hi])

/-- Claim C6: each stats window is a dense mapping from the last n dates
(today going backward) to the session count of that day, with total the sum of
the per-day counts; for the 7- and 30-day windows actually produced by
`get_stats`, average is total divided by the window length and
completion_rate is the share of non-zero days times 100; one session per
day for the 7 days ending today yields total 7, average 1, completion 100. -/
theorem get_stats_correct (today : Int) (sessions : List Session) (n : Nat) :
    (windowStats today n sessions).data =
      (List.range n).map (fun (i : Nat) =>
        (today - (i : Int),
         (sessions.filter (fun e => decide (e.date = today - (i : Int)))).length)) ∧
    (windowStats today n sessions).total =
      ((List.range n).map (fun (i : Nat) =>
        (sessions.filter (fun e => decide (e.date = today - (i : Int)))).length)).sum ∧
    (windowStats today 7 sessions).average =
      ((windowStats today 7 sessions).total : ℚ) / 7 ∧
    (windowStats today 30 sessions).average =
      ((windowStats today 30 sessions).total : ℚ) / 30 ∧
    (windowStats today 7 sessions).completion_rate =
      (((windowStats today 7 sessions).data.filter
        (fun p => decide (0 < p.2))).length : ℚ) / 7 * 100 ∧
    (windowStats today 30 sessions).completion_rate =
      (((windowStats today 30 sessions).data.filter
        (fun p => decide (0 < p.2))).length : ℚ) / 30 * 100 ∧
    get_stats today (some sessions) =
      some (windowStats today 7 sessions, windowStats today 30 sessions) ∧
    (windowStats today 7 (oneEachDay today)).total = 7 ∧
    (windowStats today 7 (oneEachDay today)).average = 1 ∧
    (windowStats today 7 (oneEachDay today)).completion_rate = 100 := by
  have h7 : (7 : Nat) ≠ 0 := by norm_num
  have h30 : (30 : Nat) ≠ 0 := by norm_num
  have htot1 : (windowStats today 7 (oneEachDay today)).total = 7 := by
    show (((windowStats today 7 (oneEachDay today)).data).map Prod.snd).sum = 7
    rw [oneEachDay_data, List.map_map]
    have hc : (Prod.snd ∘ fun i : Nat => ((today - (i : Int), 1) : Int × Nat)) =
        (fun i : Nat => 1) := rfl
    rw [hc]
    decide
  have hfilt1 : ((windowStats today 7 (oneEachDay today)).data.filter
      (fun p => decide (0 < p.2))).length = 7 := by
    rw [oneEachDay_data, List.filter_map, List.length_map]
    have hc : ((fun p : Int × Nat => decide (0 < p.2)) ∘
        (fun i : Nat => ((today - (i : Int), 1) : Int × Nat))) =
        (fun i : Nat => true) := rfl
    rw [hc]
    decide
  refine ⟨windowStats_data today n sessions, windowStats_total today n sessions,
    windowStats_average today 7 sessions h7, windowStats_average today 30 sessions h30,
    windowStats_completion today 7 sessions h7, windowStats_completion today 30 sessions h30,
    rfl, htot1, ?_, ?_⟩
  · rw [windowStats_average today 7 (oneEachDay today) h7, htot1]
    norm_num
  · rw [windowStats_completion today 7 (oneEachDay today) h7, hfilt1]
    norm_num

theorem check_achievements_state_fields (today : Int)
    (lg : Option (List Session)) (s : GamState) :
    ((check_achievements today lg s).2.1).level = s.level ∧
    ((check_achievements today lg s).2.1).xp = s.xp ∧
    ((check_achievements today lg s).2.1).current_streak = s.current_streak := by
  cases lg <;> exact ⟨rfl, rfl, rfl⟩

/-- Claim C8 counterexample: a state produced by `load_data` whose stored
level (5) disagrees with its xp (0, level 1) stays inconsistent through
`update_streak`, so the invariant does not hold after this mutation on a
loaded state. -/
theorem level_invariant_cex :
    (update_streak (load_data (some
      { xp := 0, level := 5, achievements := [], last_session_date := none,
        current_streak := 0, longest_streak := 0 })) 0).level ≠
    get_level_from_xp ((update_streak (load_data (some
      { xp := 0, level := 5, achievements := [], last_session_date := none,
        current_streak := 0, longest_streak := 0 })) 0).xp) := by
  decide

/-- Claim C8 (amended): the invariant level = get_level_from_xp(xp) holds
on the default initial state, is established by `add_session_xp` from any
state, and is preserved by `update_streak` and `check_achievements` from
any state satisfying it — hence it holds after every mutation applied to
any state reachable from the default initial state. (A state produced by
`load_data` from a file whose stored level disagrees with its xp can
violate it, and `update_streak` and `check_achievements` leave that
violation in place.) -/
theorem level_invariant_preserved (s : GamState) (d today : Int)
    (lg : Option (List Session)) (hinv : s.level = get_level_from_xp s.xp) :
    defaultData.level = get_level_from_xp defaultData.xp ∧
    ((add_session_xp s).2).level = get_level_from_xp ((add_session_xp s).2).xp ∧
    (update_streak s d).level = get_level_from_xp ((update_streak s d).xp) ∧
    ((check_achievements today lg s).2.1).level =
      get_level_from_xp (((check_achievements today lg s).2.1).xp) := by
  refine ⟨by decide, rfl, ?_, ?_⟩
  · rw [(update_streak_xp s d).1, (update_streak_xp s d).2.1]
    exact hinv
  · rw [(check_achievements_state_fields today lg s).1,
      (check_achievements_state_fields today lg s).2.1]
    exact hinv

/-- Witness for C8 (amended) at the default state, day 0, no logger. -/
theorem level_invariant_preserved_witness :
    defaultData.level = get_level_from_xp defaultData.xp ∧
    (defaultData.level = get_level_from_xp defaultData.xp ∧
     ((add_session_xp defaultData).2).level =
       get_level_from_xp ((add_session_xp defaultData).2).xp ∧
     (update_streak defaultData 0).level =
       get_level_from_xp ((update_streak defaultData 0).xp) ∧
     ((check_achievements 0 none defaultData).2.1).level =
       get_level_from_xp (((check_achievements 0 none defaultData).2.1).xp)) :=
  ⟨by decide, level_invariant_preserved defaultData 0 0 none (by decide)⟩

/-- Claim C10: without a session logger, `check_achievements` returns the
empty list, leaves the state untouched and performs no write, and
`get_stats` returns the empty dictionary (modelled as `none`, distinct
from a zero-filled stats structure). -/
theorem no_logger_degrades (today : Int) (s : GamState) :
    check_achievements today none s = ([], s, false) ∧
    get_stats today none = none ∧
    get_stats today none ≠ some (windowStats today 7 [], windowStats today 30 []) := by
  refine ⟨rfl, rfl, ?_⟩
  simp [get_stats]

end Pomodoro
